import Mathlib

/-!
Verification of the NoSmoke backend progress aggregator
(`src/backend/server.py`) against its specification.

Modelling conventions, shared by every definition below:

* Instants are modelled as microseconds since the Unix epoch, UTC, as an
  `Int`.  The source stores timestamps as `datetime.now(timezone.utc).isoformat()`
  strings; per the data model those strings are ISO-8601, UTC and
  string-sortable (lexicographic order coincides with chronological order),
  so comparisons of such strings — including the MongoDB `$gte`/`$lte` range
  queries of `get_weekly_progress` and `get_monthly_progress` — coincide
  with comparisons of the underlying instants.
* Python `datetime` subtraction followed by `.days` floors toward minus
  infinity; this is `Int.fdiv` by the number of microseconds per day.
* Python `float` arithmetic is modelled over `ℚ`; `round(x, 2)` is modelled
  as round-half-to-even at two decimal places (`pyRound2`).
* A Python statement that raises (a `ValueError` from
  `datetime.fromisoformat`, or a `ZeroDivisionError` from division by zero)
  is modelled as `Except.error`, propagating in statement order exactly as
  an uncaught exception does; `get_progress_summary` installs no handler.
-/

namespace NoSmoke

/-- Microseconds per day; `timedelta(days=1)` and the length of a calendar
day in the microsecond timeline. -/
def usPerDay : Int := 86400000000

/-- A stored timestamp string: either a well-formed ISO-8601 UTC string,
identified with the instant it denotes (in microseconds since the epoch),
or a malformed string that `datetime.fromisoformat` rejects. -/
inductive TimeStr where
  | valid (t : Int)
  | malformed (s : String)
deriving DecidableEq

/-- Python truthiness of the stored string (`if quit_date:`): a well-formed
timestamp string is nonempty hence truthy; a malformed one is truthy
exactly when it is nonempty. -/
def TimeStr.isTruthy : TimeStr → Bool
  | .valid _ => true
  | .malformed s => s ≠ ""

/-- `datetime.fromisoformat` (after the source's `"Z" → "+00:00"`
normalisation and the conditional attachment of `timezone.utc` to naive
results): a well-formed string yields its instant, a malformed string
raises `ValueError`. -/
def fromisoformat : TimeStr → Except String Int
  | .valid t => .ok t
  | .malformed s => .error ("ValueError: Invalid isoformat string: " ++ s)

/-- `timedelta.days` of a duration given in microseconds: floor division by
the microseconds of one day (Python floors toward minus infinity, also for
negative durations). -/
def timedeltaDays (d : Int) : Int := Int.fdiv d usPerDay

/-- Round-half-to-even to an integer, Python's `round(x)` on exact values. -/
def roundHalfEven (x : ℚ) : Int :=
  if x - ⌊x⌋ < 1 / 2 then ⌊x⌋
  else if 1 / 2 < x - ⌊x⌋ then ⌊x⌋ + 1
  else if 2 ∣ (⌊x⌋ : Int) then ⌊x⌋ else ⌊x⌋ + 1

/-- Python `round(x, 2)`: round-half-to-even at two decimal places. -/
def pyRound2 (x : ℚ) : ℚ := (roundHalfEven (100 * x) : ℚ) / 100

/-- The profile fields `get_progress_summary` reads from the user document
(after the `user.get(..., default)` lookups): `quit_date` may be absent,
`cost_per_pack` is a float, the two cigarette parameters are ints. -/
structure User where
  quit_date : Option TimeStr
  cigarettes_per_day : Int
  cost_per_pack : ℚ
  cigarettes_per_pack : Int
deriving DecidableEq

/-- The mapping returned by `get_progress_summary`. -/
structure Summary where
  days_smoke_free : Int
  current_streak : Int
  cigarettes_avoided : Int
  money_saved : ℚ
  quit_date : Option TimeStr
deriving DecidableEq

/-- Lines 385–392 of `server.py`: if `quit_date` is truthy, parse it (a
`ValueError` escapes) and take `(now - quit_datetime).days`; otherwise
`days_smoke_free = 0`. -/
def daysSmokeFreeRaw (user : User) (now : Int) : Except String Int :=
  match user.quit_date with
  | none => .ok 0
  | some qd =>
    if qd.isTruthy then
      match fromisoformat qd with
      | .error e => .error e
      | .ok q => .ok (timedeltaDays (now - q))
    else .ok 0

/-- Lines 407–412 of `server.py`: `current_streak` starts as
`days_smoke_free`; if the cigarette-event query returned anything, parse
the first (most recent) event's `created_at` (a `ValueError` escapes) and
take `(now - last_smoke).days`. -/
def streakRaw (days_smoke_free : Int) (now : Int) (cigEventsDesc : List TimeStr) :
    Except String Int :=
  match cigEventsDesc with
  | [] => .ok days_smoke_free
  | ts :: _ =>
    match fromisoformat ts with
    | .error e => .error e
    | .ok t => .ok (timedeltaDays (now - t))

/-- `get_progress_summary` (lines 382–420 of `server.py`).  `cigEventsDesc`
is the `created_at` column of the event-log collaborator's answer to
`find({user_id, event_type: "cigarette"}).sort("created_at", -1).to_list(100)`:
the user's cigarette events, most recent first, capped at 100.  Statement
order is preserved: the `quit_date` parse runs first, then the
`cost_per_pack / cigarettes_per_pack` division (which raises
`ZeroDivisionError` when the divisor is 0 — the source has no guard), then
the streak computation; the final dict clamps each counter with `max(0, ·)`
and rounds the clamped `money_saved` to 2 decimals. -/
def computeSummary (user : User) (now : Int) (cigEventsDesc : List TimeStr) :
    Except String Summary :=
  match daysSmokeFreeRaw user now with
  | .error e => .error e
  | .ok days_smoke_free =>
    let cigarettes_avoided := days_smoke_free * user.cigarettes_per_day
    if user.cigarettes_per_pack = 0 then
      .error "ZeroDivisionError: float division by zero"
    else
      let cost_per_cigarette : ℚ := user.cost_per_pack / (user.cigarettes_per_pack : ℚ)
      let money_saved : ℚ := (cigarettes_avoided : ℚ) * cost_per_cigarette
      match streakRaw days_smoke_free now cigEventsDesc with
      | .error e => .error e
      | .ok current_streak =>
        .ok { days_smoke_free := max 0 days_smoke_free
              current_streak := max 0 current_streak
              cigarettes_avoided := max 0 cigarettes_avoided
              money_saved := pyRound2 (max 0 money_saved)
              quit_date := user.quit_date }

/-- An event-log record as read by the bucketing endpoints.  Per the data
model every stored `created_at` is a well-formed ISO-8601 UTC string, so it
is identified with its instant (microseconds since the epoch); the string
range queries of the source then coincide with instant comparisons. -/
structure Event where
  event_type : String
  created_at : Int
deriving DecidableEq

/-- Tally of one event type over a fetched list, e.g.
`sum(1 for e in events if e["event_type"] == "cigarette")`. -/
def countType (evs : List Event) (ty : String) : Nat :=
  evs.countP (fun e => e.event_type == ty)

/-- `day.replace(hour=0, minute=0, second=0, microsecond=0)` on a UTC
instant: the midnight that starts the instant's UTC calendar day. -/
def dayFloor (t : Int) : Int := Int.fdiv t usPerDay * usPerDay

/-- One entry of the `days` list returned by `get_weekly_progress`.  The
source labels it with `day.strftime("%Y-%m-%d")` and `day.strftime("%a")`;
both labels are determined by the UTC calendar-day number, which is what
`date` records here. -/
structure DayBucket where
  date : Int
  cigarettes : Nat
  urges : Nat
  resisted : Nat
deriving DecidableEq

/-- The day-window membership test of iteration `i` of
`get_weekly_progress`: `day = now - timedelta(days=6-i)`, window
`[day.replace(hour=0, minute=0, second=0, microsecond=0),
day.replace(hour=23, minute=59, second=59, microsecond=999999)]`,
inclusive both ends, the end being the day's last microsecond. -/
def inDayWindow (now : Int) (i : Nat) (e : Event) : Bool :=
  decide (dayFloor (now - (6 - (i : Int)) * usPerDay) ≤ e.created_at) &&
  decide (e.created_at ≤ dayFloor (now - (6 - (i : Int)) * usPerDay) + usPerDay - 1)

/-- The per-day fetch of `get_weekly_progress` (line 436 of `server.py`):
`db.events.find({user_id, created_at range}).to_list(1000)` — the
matching events in store order, capped at the first 1000. -/
def dayWindowFetch (now : Int) (events : List Event) (i : Nat) : List Event :=
  (events.filter (inDayWindow now i)).take 1000

/-- The body of the `for i in range(7)` loop of `get_weekly_progress`
(lines 428–444 of `server.py`): the bucket tallies the (at most 1000)
fetched events of each type.  The `date` field is the day's UTC day
number, which determines the `strftime` labels. -/
def dailyBucket (now : Int) (events : List Event) (i : Nat) : DayBucket :=
  { date := Int.fdiv (now - (6 - (i : Int)) * usPerDay) usPerDay
    cigarettes := countType (dayWindowFetch now events i) "cigarette"
    urges := countType (dayWindowFetch now events i) "urge"
    resisted := countType (dayWindowFetch now events i) "resisted" }

/-- `get_weekly_progress` (lines 422–446 of `server.py`): the seven daily
buckets, in loop order `i = 0 .. 6`. -/
def computeDailyBuckets (now : Int) (events : List Event) : List DayBucket :=
  (List.range 7).map (dailyBucket now events)

/-- One entry of the `weeks` list returned by `get_monthly_progress`.  The
source formats `start_date`/`end_date` with `strftime("%m/%d")`; the
instants recorded here determine those labels. -/
structure WeekBucket where
  week : String
  start_date : Int
  end_date : Int
  cigarettes : Nat
  urges : Nat
  resisted : Nat
deriving DecidableEq

/-- The week-window membership test of iteration `i` of
`get_monthly_progress`: `week_end = now - timedelta(weeks=i)`,
`week_start = week_end - timedelta(days=7)`, inclusive both ends. -/
def inWeekWindow (now : Int) (i : Nat) (e : Event) : Bool :=
  decide (now - (i : Int) * (7 * usPerDay) - 7 * usPerDay ≤ e.created_at) &&
  decide (e.created_at ≤ now - (i : Int) * (7 * usPerDay))

/-- The per-week fetch of `get_monthly_progress` (line 461 of
`server.py`): `db.events.find({user_id, created_at range}).to_list(1000)`
— the matching events in store order, capped at the first 1000. -/
def weekWindowFetch (now : Int) (events : List Event) (i : Nat) : List Event :=
  (events.filter (inWeekWindow now i)).take 1000

/-- The body of the `for i in range(4)` loop of `get_monthly_progress`
(lines 454–470 of `server.py`): label `f"Week {4-i}"`, and the bucket
tallies the (at most 1000) fetched events of each type. -/
def weeklyBucketRaw (now : Int) (events : List Event) (i : Nat) : WeekBucket :=
  { week := "Week " ++ toString (4 - i)
    start_date := now - (i : Int) * (7 * usPerDay) - 7 * usPerDay
    end_date := now - (i : Int) * (7 * usPerDay)
    cigarettes := countType (weekWindowFetch now events i) "cigarette"
    urges := countType (weekWindowFetch now events i) "urge"
    resisted := countType (weekWindowFetch now events i) "resisted" }

/-- `get_monthly_progress` (lines 448–472 of `server.py`): the four
weekly buckets of loop order `i = 0 .. 3` (most recent first), reversed
before being returned. -/
def computeMonthlyBuckets (now : Int) (events : List Event) : List WeekBucket :=
  ((List.range 4).map (weeklyBucketRaw now events)).reverse

/-- A trigger record as read by `get_trigger_patterns` (only the
`trigger_type` field is consulted). -/
structure Trigger where
  trigger_type : String
deriving DecidableEq

/-- One step of `type_counts[t] = type_counts.get(t, 0) + 1` on a Python
dict in insertion order: increment the first matching key in place, or
append the new key at the end with count 1. -/
def addCount : List (String × Nat) → String → List (String × Nat)
  | [], ty => [(ty, 1)]
  | (t, c) :: rest, ty =>
    if t = ty then (t, c + 1) :: rest else (t, c) :: addCount rest ty

/-- The `type_counts` dict of `get_trigger_patterns`, as an
insertion-ordered association list. -/
def typeCounts (triggers : List Trigger) : List (String × Nat) :=
  triggers.foldl (fun acc tr => addCount acc tr.trigger_type) []

/-- The comparison of `sorted(type_counts.items(), key=lambda x: x[1],
reverse=True)`: an entry goes before another when its count is at least as
large; Python's sort is stable, as is `List.mergeSort`. -/
def descByCount (a b : String × Nat) : Bool := b.2 ≤ a.2

/-- The mapping returned by `get_trigger_patterns`. -/
structure PatternSummary where
  total_triggers : Nat
  by_type : List (String × Nat)
  most_common : Option String
  top_triggers : List (String × Nat)
deriving DecidableEq

/-- `get_trigger_patterns` (lines 360–378 of `server.py`): fetch the
user's trigger records with no time filter but capped at the first 1000
(`db.triggers.find({user_id}).to_list(1000)`, line 363, store order),
count the fetched records by `trigger_type`, sort the pairs descending by
count (stably), and report the fetched total, the full mapping, the head
of the sorted list (or `None`) and its first five entries. -/
def computeTriggerPatterns (triggers : List Trigger) : PatternSummary :=
  { total_triggers := (triggers.take 1000).length
    by_type := typeCounts (triggers.take 1000)
    most_common := ((typeCounts (triggers.take 1000)).mergeSort descByCount).head?.map Prod.fst
    top_triggers := ((typeCounts (triggers.take 1000)).mergeSort descByCount).take 5 }

/-- First-match lookup in an association list with default 0: how a
Python dict built by `addCount` answers `d[ty]` / `d.get(ty, 0)`. -/
def lookupCount : List (String × Nat) → String → Nat
  | [], _ => 0
  | (t, c) :: rest, ty => if t = ty then c else lookupCount rest ty

/-- The slice of a stored user document the registration claims are about.
`quit_date` is kept as the raw stored string. -/
structure StoredUser where
  quit_date : Option String
deriving DecidableEq

/-- The `quit_date` assignment of `register` (line 210 of `server.py`):
`"quit_date": user_data.quit_date or now[:10]`, where
`now = datetime.now(timezone.utc).isoformat()`, so `now[:10]` is the
current UTC calendar date `YYYY-MM-DD`.  Python's `or` falls through to
the default when the client value is `None` or the empty string. -/
def register (input_quit_date : Option String) (now_iso : String) : StoredUser :=
  { quit_date := some (match input_quit_date with
      | none => now_iso.take 10
      | some s => if s = "" then now_iso.take 10 else s) }

/-- The new-user branch of `telegram_auth` (line 251 of `server.py`):
`"quit_date": now[:10]` unconditionally. -/
def telegramNewUser (now_iso : String) : StoredUser :=
  { quit_date := some (now_iso.take 10) }

/-- The `money_saved` formula exactly as claim C3 states it:
`round(days_smoke_free * cigarettes_per_day * cost_per_pack /
cigarettes_per_pack, 2)`, with no clamping. -/
def moneySavedClaimFormula (days_smoke_free cigarettes_per_day : Int)
    (cost_per_pack : ℚ) (cigarettes_per_pack : Int) : ℚ :=
  pyRound2 ((days_smoke_free : ℚ) * (cigarettes_per_day : ℚ) * cost_per_pack
    / (cigarettes_per_pack : ℚ))

/-- The daily bucket as the spec words it, for output position `k`
(`0 ≤ k ≤ 6`, oldest first): the date is the `k`-th of the 7 consecutive
UTC calendar days ending today (today = `now`'s day), and each count
tallies the events of that type whose `created_at` lies between that
day's midnight and its last microsecond (23:59:59.999999), inclusive. -/
def dayBucketSpec (now : Int) (events : List Event) (k : Nat) : DayBucket :=
  { date := Int.fdiv now usPerDay - 6 + (k : Int)
    cigarettes := events.countP (fun e =>
      decide ((Int.fdiv now usPerDay - 6 + (k : Int)) * usPerDay ≤ e.created_at) &&
      decide (e.created_at ≤ (Int.fdiv now usPerDay - 6 + (k : Int)) * usPerDay + usPerDay - 1) &&
      (e.event_type == "cigarette"))
    urges := events.countP (fun e =>
      decide ((Int.fdiv now usPerDay - 6 + (k : Int)) * usPerDay ≤ e.created_at) &&
      decide (e.created_at ≤ (Int.fdiv now usPerDay - 6 + (k : Int)) * usPerDay + usPerDay - 1) &&
      (e.event_type == "urge"))
    resisted := events.countP (fun e =>
      decide ((Int.fdiv now usPerDay - 6 + (k : Int)) * usPerDay ≤ e.created_at) &&
      decide (e.created_at ≤ (Int.fdiv now usPerDay - 6 + (k : Int)) * usPerDay + usPerDay - 1) &&
      (e.event_type == "resisted")) }

/-- The weekly bucket as claim C7 words it, for output position `k`
(`0 ≤ k ≤ 3`, oldest first, so internal index `i = 3 - k`): label
`Week (k+1)`, trailing window `[now - (i+1)*7d, now - i*7d]` inclusive,
tallying the three event types within the window. -/
def weekBucketSpec (now : Int) (events : List Event) (k : Nat) : WeekBucket :=
  { week := "Week " ++ toString (k + 1)
    start_date := now - (4 - (k : Int)) * (7 * usPerDay)
    end_date := now - (3 - (k : Int)) * (7 * usPerDay)
    cigarettes := events.countP (fun e =>
      decide (now - (4 - (k : Int)) * (7 * usPerDay) ≤ e.created_at) &&
      decide (e.created_at ≤ now - (3 - (k : Int)) * (7 * usPerDay)) &&
      (e.event_type == "cigarette"))
    urges := events.countP (fun e =>
      decide (now - (4 - (k : Int)) * (7 * usPerDay) ≤ e.created_at) &&
      decide (e.created_at ≤ now - (3 - (k : Int)) * (7 * usPerDay)) &&
      (e.event_type == "urge"))
    resisted := events.countP (fun e =>
      decide (now - (4 - (k : Int)) * (7 * usPerDay) ≤ e.created_at) &&
      decide (e.created_at ≤ now - (3 - (k : Int)) * (7 * usPerDay)) &&
      (e.event_type == "resisted")) }

/-- Start of the 7-day window covered by the daily buckets: midnight of
the oldest bucketed day (6 days before today). -/
def weeklyWindowStart (now : Int) : Int := (Int.fdiv now usPerDay - 6) * usPerDay

/-- End of the 7-day window covered by the daily buckets: the last
microsecond (23:59:59.999999) of today. -/
def weeklyWindowEnd (now : Int) : Int := Int.fdiv now usPerDay * usPerDay + usPerDay - 1

/-- Inversion of a successful `computeSummary`: the quit-date step, the
division guard and the streak step all succeeded, and the returned record
is the clamped dict of line 414. -/
lemma computeSummary_ok (u : User) (now : Int) (cigs : List TimeStr) (s : Summary)
    (hok : computeSummary u now cigs = .ok s) :
    ∃ dsf streak,
      daysSmokeFreeRaw u now = .ok dsf
      ∧ u.cigarettes_per_pack ≠ 0
      ∧ streakRaw dsf now cigs = .ok streak
      ∧ s = { days_smoke_free := max 0 dsf
              current_streak := max 0 streak
              cigarettes_avoided := max 0 (dsf * u.cigarettes_per_day)
              money_saved := pyRound2 (max 0 (((dsf * u.cigarettes_per_day : Int) : ℚ)
                  * (u.cost_per_pack / (u.cigarettes_per_pack : ℚ))))
              quit_date := u.quit_date } := by
  cases h1 : daysSmokeFreeRaw u now with
  | error e =>
    simp only [computeSummary, h1] at hok
    exact Except.noConfusion hok
  | ok dsf =>
    by_cases h2 : u.cigarettes_per_pack = 0
    · simp only [computeSummary, h1, h2, if_pos] at hok
      exact Except.noConfusion hok
    · cases h3 : streakRaw dsf now cigs with
      | error e =>
        simp only [computeSummary, h1, h3, if_neg h2] at hok
        exact Except.noConfusion hok
      | ok streak =>
        simp only [computeSummary, h1, h3, if_neg h2, Except.ok.injEq] at hok
        exact ⟨dsf, streak, rfl, h2, h3, hok.symm⟩

/-- `(now - t).days` is nonnegative when `t` does not lie in the future. -/
lemma timedeltaDays_nonneg {t now : Int} (h : t ≤ now) : 0 ≤ timedeltaDays (now - t) := by
  have : Int.fdiv (now - t) usPerDay = (now - t) / usPerDay :=
    Int.fdiv_eq_ediv _ (by norm_num [usPerDay])
  unfold timedeltaDays
  rw [this]
  exact Int.ediv_nonneg (by omega) (by norm_num [usPerDay])

/-- Round-half-to-even preserves nonnegativity. -/
lemma roundHalfEven_nonneg {x : ℚ} (hx : 0 ≤ x) : 0 ≤ roundHalfEven x := by
  have hf : (0 : Int) ≤ ⌊x⌋ := Int.floor_nonneg.mpr hx
  unfold roundHalfEven
  split_ifs <;> omega

/-- Python's 2-decimal rounding preserves nonnegativity. -/
lemma pyRound2_nonneg {x : ℚ} (hx : 0 ≤ x) : 0 ≤ pyRound2 x := by
  unfold pyRound2
  have h1 : (0 : Int) ≤ roundHalfEven (100 * x) := roundHalfEven_nonneg (by positivity)
  have h2 : (0 : ℚ) ≤ (roundHalfEven (100 * x) : ℚ) := by exact_mod_cast h1
  positivity

/-- A whole number of days lasts exactly that many `timedelta.days`. -/
lemma timedeltaDays_mul_usPerDay (k : Int) : timedeltaDays (k * usPerDay) = k := by
  unfold timedeltaDays
  rw [Int.fdiv_eq_ediv _ (by norm_num [usPerDay])]
  rw [Int.mul_ediv_cancel _ (by norm_num [usPerDay])]

/-- Rounding an exact integer to 2 decimals returns it unchanged. -/
lemma pyRound2_intCast (n : Int) : pyRound2 ((n : ℚ)) = (n : ℚ) := by
  unfold pyRound2 roundHalfEven
  have h100 : (100 : ℚ) * (n : ℚ) = ((100 * n : Int) : ℚ) := by push_cast; ring
  rw [h100, Int.floor_intCast, sub_self, if_pos (by norm_num)]
  push_cast
  ring

/-- Evaluation of `computeSummary` on a valid quit date and an empty
cigarette-event list. -/
lemma computeSummary_eval_nil (qt cpd : Int) (cpp : ℚ) (cpk : Int) (hcpk : cpk ≠ 0)
    (now : Int) :
    computeSummary
      { quit_date := some (.valid qt), cigarettes_per_day := cpd,
        cost_per_pack := cpp, cigarettes_per_pack := cpk } now []
      = .ok { days_smoke_free := max 0 (timedeltaDays (now - qt))
              current_streak := max 0 (timedeltaDays (now - qt))
              cigarettes_avoided := max 0 (timedeltaDays (now - qt) * cpd)
              money_saved := pyRound2 (max 0 (((timedeltaDays (now - qt) * cpd : Int) : ℚ)
                  * (cpp / (cpk : ℚ))))
              quit_date := some (.valid qt) } := by
  simp [computeSummary, daysSmokeFreeRaw, streakRaw, fromisoformat, TimeStr.isTruthy, hcpk]

/-- Evaluation of `computeSummary` on a valid quit date and a cigarette
event list whose head is valid. -/
lemma computeSummary_eval_cons (qt te cpd : Int) (cpp : ℚ) (cpk : Int) (hcpk : cpk ≠ 0)
    (now : Int) (rest : List TimeStr) :
    computeSummary
      { quit_date := some (.valid qt), cigarettes_per_day := cpd,
        cost_per_pack := cpp, cigarettes_per_pack := cpk } now (.valid te :: rest)
      = .ok { days_smoke_free := max 0 (timedeltaDays (now - qt))
              current_streak := max 0 (timedeltaDays (now - te))
              cigarettes_avoided := max 0 (timedeltaDays (now - qt) * cpd)
              money_saved := pyRound2 (max 0 (((timedeltaDays (now - qt) * cpd : Int) : ℚ)
                  * (cpp / (cpk : ℚ))))
              quit_date := some (.valid qt) } := by
  simp [computeSummary, daysSmokeFreeRaw, streakRaw, fromisoformat, TimeStr.isTruthy, hcpk]

/-- Claim C2.  Given a successful summary: when the cigarette-event query
returned at least one record, `current_streak` is exactly the whole days
elapsed from the most recent cigarette event (the head of the
descending-sorted query result, here witnessed as at least as recent as
every other returned event) to `now`, with no reference to `quit_date` —
the profile's quit date, present, absent, earlier or later than the
event, does not appear in the conclusion; when no cigarette event exists,
`current_streak` coincides with `days_smoke_free`. -/
theorem claim_C2_streak_overrides (u : User) (now : Int) (cigs : List TimeStr)
    (s : Summary) (hok : computeSummary u now cigs = .ok s) :
    (∀ ts rest t, cigs = ts :: rest →
        fromisoformat ts = .ok t →
        (∀ ts' t', ts' ∈ rest → fromisoformat ts' = .ok t' → t' ≤ t) →
        t ≤ now →
        s.current_streak = timedeltaDays (now - t))
    ∧ (cigs = [] → s.current_streak = s.days_smoke_free) := by
  obtain ⟨dsf, streak, _, _, h3, hs⟩ := computeSummary_ok u now cigs s hok
  subst hs
  constructor
  · intro ts rest t hcons ht _ htle
    subst hcons
    simp only [streakRaw, ht, Except.ok.injEq] at h3
    subst h3
    simpa using max_eq_right (timedeltaDays_nonneg htle)
  · intro hnil
    subst hnil
    simp only [streakRaw, Except.ok.injEq] at h3
    subst h3
    rfl

/-- Concrete run of the summary: quit date 10 days before `now`, one
cigarette event 2 days before `now`, 10 cigarettes a day at 10 currency
units per 20-cigarette pack. -/
lemma summary_eval_scenario :
    computeSummary
      { quit_date := some (.valid 0), cigarettes_per_day := 10,
        cost_per_pack := 10, cigarettes_per_pack := 20 }
      (10 * usPerDay) [.valid (8 * usPerDay)]
      = .ok (Summary.mk 10 2 100 50 (some (.valid 0))) := by
  rw [computeSummary_eval_cons 0 (8 * usPerDay) 10 10 20 (by norm_num) (10 * usPerDay) []]
  have h1 : (10 : Int) * usPerDay - 0 = 10 * usPerDay := by ring
  have h2 : (10 : Int) * usPerDay - 8 * usPerDay = 2 * usPerDay := by ring
  rw [h1, h2, timedeltaDays_mul_usPerDay, timedeltaDays_mul_usPerDay]
  have hm : pyRound2 (max 0 (((10 * 10 : Int) : ℚ) * ((10 : ℚ) / ((20 : Int) : ℚ)))) = 50 := by
    have h : (((10 * 10 : Int) : ℚ) * ((10 : ℚ) / ((20 : Int) : ℚ))) = ((50 : Int) : ℚ) := by
      push_cast
      norm_num
    rw [h, max_eq_right (by norm_num : (0 : ℚ) ≤ ((50 : Int) : ℚ)), pyRound2_intCast]
    norm_num
  rw [hm]
  norm_num

/-- The clamped money of a one-day-in-the-future quit date: the product
is `-5`, clamped to 0 before rounding. -/
lemma pyRound2_clamped_neg :
    pyRound2 (max 0 (((-1 * 10 : Int) : ℚ) * ((10 : ℚ) / ((20 : Int) : ℚ)))) = 0 := by
  have h : (((-1 * 10 : Int) : ℚ) * ((10 : ℚ) / ((20 : Int) : ℚ))) = ((-5 : Int) : ℚ) := by
    push_cast
    norm_num
  rw [h, max_eq_left (by norm_num : ((-5 : Int) : ℚ) ≤ 0)]
  simpa using pyRound2_intCast 0

/-- Witness for claim C2: quit date 10 days before `now`, one cigarette
event 2 days before `now`; the streak is 2 days. -/
theorem claim_C2_witness :
    (Summary.mk 10 2 100 50 (some (.valid 0))).current_streak
      = timedeltaDays (10 * usPerDay - 8 * usPerDay) :=
  (claim_C2_streak_overrides
    { quit_date := some (.valid 0), cigarettes_per_day := 10,
      cost_per_pack := 10, cigarettes_per_pack := 20 }
    (10 * usPerDay) [.valid (8 * usPerDay)]
    (Summary.mk 10 2 100 50 (some (.valid 0))) summary_eval_scenario).1
    (.valid (8 * usPerDay)) [] (8 * usPerDay) rfl rfl
    (by intro ts' t' h; simp at h) (by norm_num [usPerDay])

/-- Claim C3, counterexample to the claim as stated.  A parseable
`quit_date` one day in the future with `cigarettes_per_pack = 20 ≠ 0`:
the code clamps the negative product to 0 before rounding and returns
`money_saved = 0`, whereas the claim's formula
`round(days_smoke_free * cigarettes_per_day * cost_per_pack /
cigarettes_per_pack, 2)` with `days_smoke_free = -1` yields `-5`. -/
theorem claim_C3_counterexample :
    computeSummary
      { quit_date := some (.valid usPerDay), cigarettes_per_day := 10,
        cost_per_pack := 10, cigarettes_per_pack := 20 }
      0 []
      = .ok (Summary.mk 0 0 0 0 (some (.valid usPerDay)))
    ∧ moneySavedClaimFormula (timedeltaDays (0 - usPerDay)) 10 10 20
      ≠ (Summary.mk 0 0 0 0 (some (.valid usPerDay))).money_saved := by
  have t1 : (0 : Int) - usPerDay = -1 * usPerDay := by ring
  have d1 : timedeltaDays ((0 : Int) - usPerDay) = -1 := by
    rw [t1, timedeltaDays_mul_usPerDay]
  constructor
  · rw [computeSummary_eval_nil usPerDay 10 10 20 (by norm_num) 0]
    rw [d1, pyRound2_clamped_neg]
    norm_num
  · rw [d1]
    unfold moneySavedClaimFormula
    have h : (((-1 : Int) : ℚ) * ((10 : Int) : ℚ) * (10 : ℚ) / ((20 : Int) : ℚ))
        = ((-5 : Int) : ℚ) := by
      push_cast
      norm_num
    rw [h, pyRound2_intCast]
    norm_num

/-- Claim C3 as amended: for every user with a parseable (truthy)
`quit_date` and a summary that succeeds (hence `cigarettes_per_pack ≠ 0`),
and regardless of what cigarette events exist, `money_saved` equals
`round(max(0, days_smoke_free * cigarettes_per_day * cost_per_pack /
cigarettes_per_pack), 2)` — the claim's formula with the negative case
clamped to zero before rounding, where `days_smoke_free` is the unclamped
`floor((now - quit_date) in whole days)`. -/
theorem claim_C3_money_saved (u : User) (now : Int) (cigs : List TimeStr)
    (s : Summary) (qd : TimeStr) (tq : Int)
    (hq : u.quit_date = some qd) (htr : qd.isTruthy = true)
    (hp : fromisoformat qd = .ok tq)
    (hok : computeSummary u now cigs = .ok s) :
    s.money_saved
      = pyRound2 (max 0 ((timedeltaDays (now - tq) : ℚ) * (u.cigarettes_per_day : ℚ)
          * u.cost_per_pack / (u.cigarettes_per_pack : ℚ))) := by
  obtain ⟨dsf, streak, h1, _, _, hs⟩ := computeSummary_ok u now cigs s hok
  have hdsf : dsf = timedeltaDays (now - tq) := by
    simp only [daysSmokeFreeRaw, hq, htr, if_pos, hp, Except.ok.injEq] at h1
    exact h1.symm
  subst hs hdsf
  show pyRound2 _ = pyRound2 _
  congr 1
  push_cast
  rw [mul_div_assoc]

/-- Witness for claim C3 (amended): quit date 10 days before `now`, a
cigarette event 2 days before `now` (events do not matter), 10 cigarettes
a day at 10 currency units per 20-cigarette pack; `money_saved = 50`. -/
theorem claim_C3_witness :
    (Summary.mk 10 2 100 50 (some (.valid 0))).money_saved
      = pyRound2 (max 0 ((timedeltaDays (10 * usPerDay - 0) : ℚ) * ((10 : Int) : ℚ)
          * (10 : ℚ) / ((20 : Int) : ℚ))) :=
  claim_C3_money_saved
    { quit_date := some (.valid 0), cigarettes_per_day := 10,
      cost_per_pack := 10, cigarettes_per_pack := 20 }
    (10 * usPerDay) [.valid (8 * usPerDay)]
    (Summary.mk 10 2 100 50 (some (.valid 0))) (.valid 0) 0 rfl rfl rfl
    summary_eval_scenario

/-- Claim C4.  Every successful summary reports four nonnegative
counters: each is clamped with `max(0, ·)` before being returned, and the
2-decimal rounding of the clamped `money_saved` preserves the sign. -/
theorem claim_C4_counters_nonneg (u : User) (now : Int) (cigs : List TimeStr)
    (s : Summary) (hok : computeSummary u now cigs = .ok s) :
    0 ≤ s.days_smoke_free ∧ 0 ≤ s.current_streak
    ∧ 0 ≤ s.cigarettes_avoided ∧ 0 ≤ s.money_saved := by
  obtain ⟨dsf, streak, _, _, _, hs⟩ := computeSummary_ok u now cigs s hok
  subst hs
  exact ⟨le_max_left 0 _, le_max_left 0 _, le_max_left 0 _,
    pyRound2_nonneg (le_max_left 0 _)⟩

/-- Witness for claim C4: a quit date one day in the future and a
cigarette event two days after `now`; all four counters are clamped to a
nonnegative value. -/
theorem claim_C4_witness :
    0 ≤ (Summary.mk 0 0 0 0 (some (.valid (3 * usPerDay)))).days_smoke_free
    ∧ 0 ≤ (Summary.mk 0 0 0 0 (some (.valid (3 * usPerDay)))).current_streak
    ∧ 0 ≤ (Summary.mk 0 0 0 0 (some (.valid (3 * usPerDay)))).cigarettes_avoided
    ∧ 0 ≤ (Summary.mk 0 0 0 0 (some (.valid (3 * usPerDay)))).money_saved := by
  have hok : computeSummary
      { quit_date := some (.valid (3 * usPerDay)), cigarettes_per_day := 10,
        cost_per_pack := 10, cigarettes_per_pack := 20 }
      (2 * usPerDay) [.valid (4 * usPerDay)]
      = .ok (Summary.mk 0 0 0 0 (some (.valid (3 * usPerDay)))) := by
    rw [computeSummary_eval_cons (3 * usPerDay) (4 * usPerDay) 10 10 20 (by norm_num)
      (2 * usPerDay) []]
    have h1 : (2 : Int) * usPerDay - 3 * usPerDay = -1 * usPerDay := by ring
    have h2 : (2 : Int) * usPerDay - 4 * usPerDay = -2 * usPerDay := by ring
    rw [h1, h2, timedeltaDays_mul_usPerDay, timedeltaDays_mul_usPerDay,
      pyRound2_clamped_neg]
    norm_num
  exact claim_C4_counters_nonneg _ _ _ _ hok

/-- Claim C1.  The claim says a profile with `cigarettes_per_pack = 0`
makes `ComputeSummary` fail explicitly as a reportable configuration
error, never crashing with an unhandled division fault.  The code has no
guard: line 398 of `server.py` divides `cost_per_pack` by
`cigarettes_per_pack`, so a stored value of 0 raises an uncaught
`ZeroDivisionError` that aborts the whole request.  This theorem
evaluates the code at such a profile (quit date 10 days before `now`, no
events) and shows the division fault is exactly what happens. -/
theorem claim_C1_zero_pack_division_fault :
    computeSummary
      { quit_date := some (.valid 0), cigarettes_per_day := 10,
        cost_per_pack := 10, cigarettes_per_pack := 0 }
      (10 * usPerDay) []
      = .error "ZeroDivisionError: float division by zero" := by
  rfl

/-- Claim C8.  The claim says a `quit_date` or `created_at` that fails to
parse is rejected at the point of use with a clear error identifying the
offending field, without crashing the whole request pipeline.  The code
wraps neither `fromisoformat` call in a handler, so one malformed record
aborts the entire summary computation with a bare `ValueError`: first for
a malformed `quit_date` (line 387 of `server.py`), second for a healthy
profile whose most recent cigarette event has a malformed `created_at`
(line 409). -/
theorem claim_C8_malformed_timestamp_crashes :
    computeSummary
      { quit_date := some (.malformed "not-a-date"), cigarettes_per_day := 10,
        cost_per_pack := 10, cigarettes_per_pack := 20 }
      0 []
      = .error "ValueError: Invalid isoformat string: not-a-date"
    ∧ computeSummary
      { quit_date := some (.valid 0), cigarettes_per_day := 10,
        cost_per_pack := 10, cigarettes_per_pack := 20 }
      (2 * usPerDay) [.malformed "garbage"]
      = .error "ValueError: Invalid isoformat string: garbage" := by
  constructor <;> rfl

/-- Claim C10.  Both account-creation paths leave `quit_date` non-absent:
`register` stores the client's value or, when it is omitted (or empty,
via Python `or`), the first 10 characters of the current UTC
`isoformat()` string — the current UTC calendar date; the Telegram
new-user path always stores that date.  Hence the documented
absent-`quit_date` fallback of the summary is unreachable for accounts
created through these operations. -/
theorem claim_C10_quit_date_always_present (q : Option String) (now_iso : String) :
    (register q now_iso).quit_date.isSome = true
    ∧ (telegramNewUser now_iso).quit_date.isSome = true
    ∧ (q = none → (register q now_iso).quit_date = some (now_iso.take 10))
    ∧ (telegramNewUser now_iso).quit_date = some (now_iso.take 10) := by
  refine ⟨?_, rfl, ?_, rfl⟩
  · cases q <;> simp [register]
  · intro h
    subst h
    rfl

/-- Witness for claim C10 at a concrete registration with the client
omitting `quit_date`. -/
theorem claim_C10_witness :
    (register none "2026-10-12T08:00:00+00:00").quit_date
      = some ("2026-10-12T08:00:00+00:00".take 10) :=
  (claim_C10_quit_date_always_present none "2026-10-12T08:00:00+00:00").2.2.1 rfl

/-- Two pointwise-equal boolean predicates count alike. -/
lemma countP_bool_congr {α : Type} (l : List α) (p q : α → Bool) (h : ∀ a, p a = q a) :
    l.countP p = l.countP q := by
  rw [funext h]

/-- Filtering the events of a window and then tallying one type is one
combined count over the log. -/
lemma countType_filter (evs : List Event) (p : Event → Bool) (ty : String) :
    countType (evs.filter p) ty
      = evs.countP (fun e => p e && (e.event_type == ty)) := by
  unfold countType
  rw [List.countP_filter]
  exact countP_bool_congr _ _ _ (fun e => Bool.and_comm _ _)

/-- Subtracting `k` whole days moves the floor day number down by `k`. -/
lemma fdiv_shift (now k : Int) :
    Int.fdiv (now - k * usPerDay) usPerDay = Int.fdiv now usPerDay - k := by
  rw [Int.fdiv_eq_ediv _ (by norm_num [usPerDay]), Int.fdiv_eq_ediv _ (by norm_num [usPerDay])]
  simp only [usPerDay]
  omega

/-- The day number carried by the `i`-th daily bucket is `today - 6 + i`,
independently of the fetch cap. -/
lemma dailyBucket_date (now : Int) (evs : List Event) (i : Nat) :
    (dailyBucket now evs i).date = Int.fdiv now usPerDay - 6 + (i : Int) := by
  unfold dailyBucket
  rw [fdiv_shift]
  ring

/-- When its day window holds at most 1000 of the user's events, the
`to_list(1000)` cap of the `i`-th day fetch is lossless. -/
lemma dayWindowFetch_of_le (now : Int) (evs : List Event) (i : Nat)
    (h : (evs.filter (inDayWindow now i)).length ≤ 1000) :
    dayWindowFetch now evs i = evs.filter (inDayWindow now i) := by
  unfold dayWindowFetch
  exact List.take_of_length_le h

/-- The `i`-th daily bucket of the code is the `i`-th bucket of the
spec's wording — its midnight is that of `now`'s day minus `6 - i`, i.e.
day number `today - 6 + i` — provided the window's fetch was not
truncated by the 1000-record cap. -/
lemma dailyBucket_eq_spec (now : Int) (evs : List Event) (i : Nat)
    (h : (evs.filter (inDayWindow now i)).length ≤ 1000) :
    dailyBucket now evs i = dayBucketSpec now evs i := by
  have e1 : Int.fdiv (now - (6 - (i : Int)) * usPerDay) usPerDay
      = Int.fdiv now usPerDay - 6 + (i : Int) := by
    rw [fdiv_shift]
    ring
  unfold dailyBucket dayBucketSpec
  rw [dayWindowFetch_of_le now evs i h]
  simp only [countType_filter]
  unfold inDayWindow dayFloor
  rw [e1]

/-- `computeDailyBuckets` in closed form when no day window overflows the
fetch cap: exactly the seven buckets of the spec's wording, oldest
first. -/
lemma computeDailyBuckets_eq_spec (now : Int) (evs : List Event)
    (h : ∀ i, (evs.filter (inDayWindow now i)).length ≤ 1000) :
    computeDailyBuckets now evs =
      [dayBucketSpec now evs 0, dayBucketSpec now evs 1, dayBucketSpec now evs 2,
       dayBucketSpec now evs 3, dayBucketSpec now evs 4, dayBucketSpec now evs 5,
       dayBucketSpec now evs 6] := by
  show (List.range 7).map (dailyBucket now evs) = _
  rw [show List.range 7 = [0, 1, 2, 3, 4, 5, 6] from rfl]
  simp only [List.map_cons, List.map_nil]
  rw [dailyBucket_eq_spec now evs 0 (h 0), dailyBucket_eq_spec now evs 1 (h 1),
    dailyBucket_eq_spec now evs 2 (h 2), dailyBucket_eq_spec now evs 3 (h 3),
    dailyBucket_eq_spec now evs 4 (h 4), dailyBucket_eq_spec now evs 5 (h 5),
    dailyBucket_eq_spec now evs 6 (h 6)]

/-- A single event used by the fetch-cap counterexamples: a cigarette
logged at the epoch instant, taken as `now`, so it lies in today's day
window and in the most recent week window. -/
def cexEvent : Event :=
  { event_type := "cigarette", created_at := 0 }

/-- An event log of 1001 identical cigarette events in one day: one more
than the `to_list(1000)` cap of each window fetch. -/
def bigLog : List Event := List.replicate 1001 cexEvent

set_option maxRecDepth 8000 in
set_option maxHeartbeats 1000000 in
/-- Claim C6, counterexample to the claim as stated.  With 1001
cigarette events at one instant of today, the day's fetch is truncated
at 1000 records (`to_list(1000)`, line 436 of `server.py`), so today's
bucket tallies 1000 while the spec bucket for the full inclusive window
tallies 1001: the bucket lists differ. -/
theorem claim_C6_counterexample :
    computeDailyBuckets 0 bigLog ≠
      [dayBucketSpec 0 bigLog 0, dayBucketSpec 0 bigLog 1, dayBucketSpec 0 bigLog 2,
       dayBucketSpec 0 bigLog 3, dayBucketSpec 0 bigLog 4, dayBucketSpec 0 bigLog 5,
       dayBucketSpec 0 bigLog 6] := by
  intro h
  have h6 : ((computeDailyBuckets 0 bigLog).map DayBucket.cigarettes).getLast?
      = (([dayBucketSpec 0 bigLog 0, dayBucketSpec 0 bigLog 1, dayBucketSpec 0 bigLog 2,
          dayBucketSpec 0 bigLog 3, dayBucketSpec 0 bigLog 4, dayBucketSpec 0 bigLog 5,
          dayBucketSpec 0 bigLog 6]).map DayBucket.cigarettes).getLast? := by
    rw [h]
  have hl : ((computeDailyBuckets 0 bigLog).map DayBucket.cigarettes).getLast?
      = some 1000 := by
    decide
  have hr : (([dayBucketSpec 0 bigLog 0, dayBucketSpec 0 bigLog 1, dayBucketSpec 0 bigLog 2,
      dayBucketSpec 0 bigLog 3, dayBucketSpec 0 bigLog 4, dayBucketSpec 0 bigLog 5,
      dayBucketSpec 0 bigLog 6]).map DayBucket.cigarettes).getLast? = some 1001 := by
    decide
  rw [hl, hr] at h6
  injection h6 with h7
  omega

/-- Claim C6 as amended.  `get_weekly_progress` always returns exactly 7
buckets, oldest to newest, whose dates are the 7 consecutive UTC
calendar days ending today; and whenever each day window holds at most
1000 of the user's events (the `to_list(1000)` fetch cap is lossless),
the result is exactly `[dayBucketSpec 0, …, dayBucketSpec 6]`, each
bucket tallying the three event types over the inclusive window from
that day's midnight to its last microsecond 23:59:59.999999. -/
theorem claim_C6_seven_daily_buckets (now : Int) (evs : List Event) :
    (computeDailyBuckets now evs).map DayBucket.date
      = [Int.fdiv now usPerDay - 6, Int.fdiv now usPerDay - 5, Int.fdiv now usPerDay - 4,
         Int.fdiv now usPerDay - 3, Int.fdiv now usPerDay - 2, Int.fdiv now usPerDay - 1,
         Int.fdiv now usPerDay]
    ∧ ((∀ i, (evs.filter (inDayWindow now i)).length ≤ 1000) →
        computeDailyBuckets now evs =
          [dayBucketSpec now evs 0, dayBucketSpec now evs 1, dayBucketSpec now evs 2,
           dayBucketSpec now evs 3, dayBucketSpec now evs 4, dayBucketSpec now evs 5,
           dayBucketSpec now evs 6]) := by
  constructor
  · show (((List.range 7).map (dailyBucket now evs)).map DayBucket.date) = _
    rw [List.map_map]
    simp only [Function.comp_def, dailyBucket_date]
    rw [show List.range 7 = [0, 1, 2, 3, 4, 5, 6] from rfl]
    simp only [List.map_cons, List.map_nil]
    have d0 : Int.fdiv now usPerDay - 6 + ((0 : Nat) : Int) = Int.fdiv now usPerDay - 6 := by
      push_cast
      ring
    have d1 : Int.fdiv now usPerDay - 6 + ((1 : Nat) : Int) = Int.fdiv now usPerDay - 5 := by
      push_cast
      ring
    have d2 : Int.fdiv now usPerDay - 6 + ((2 : Nat) : Int) = Int.fdiv now usPerDay - 4 := by
      push_cast
      ring
    have d3 : Int.fdiv now usPerDay - 6 + ((3 : Nat) : Int) = Int.fdiv now usPerDay - 3 := by
      push_cast
      ring
    have d4 : Int.fdiv now usPerDay - 6 + ((4 : Nat) : Int) = Int.fdiv now usPerDay - 2 := by
      push_cast
      ring
    have d5 : Int.fdiv now usPerDay - 6 + ((5 : Nat) : Int) = Int.fdiv now usPerDay - 1 := by
      push_cast
      ring
    have d6 : Int.fdiv now usPerDay - 6 + ((6 : Nat) : Int) = Int.fdiv now usPerDay := by
      push_cast
      ring
    rw [d0, d1, d2, d3, d4, d5, d6]
  · intro h
    exact computeDailyBuckets_eq_spec now evs h

/-- Witness for claim C6 (amended) at a one-event log, where no window
can overflow the fetch cap. -/
theorem claim_C6_witness :
    computeDailyBuckets 0 [cexEvent] =
      [dayBucketSpec 0 [cexEvent] 0, dayBucketSpec 0 [cexEvent] 1,
       dayBucketSpec 0 [cexEvent] 2, dayBucketSpec 0 [cexEvent] 3,
       dayBucketSpec 0 [cexEvent] 4, dayBucketSpec 0 [cexEvent] 5,
       dayBucketSpec 0 [cexEvent] 6] :=
  (claim_C6_seven_daily_buckets 0 [cexEvent]).2
    (fun i => le_trans (List.length_filter_le _ _) (by norm_num))

/-- Pointwise sums distribute over a mapped list. -/
lemma sum_map_add {α : Type} (l : List α) (f g : α → Nat) :
    (l.map (fun x => f x + g x)).sum = (l.map f).sum + (l.map g).sum := by
  induction l with
  | nil => rfl
  | cons x l ih =>
    simp only [List.map_cons, List.sum_cons, ih]
    omega

/-- Double counting: when, for every element, the indicators of the
predicates `p 0, …, p (n-1)` sum to `if q a then 1 else 0`, the
per-predicate counts over a list sum to the count of `q`. -/
lemma sum_map_countP {α : Type} (n : Nat) (p : Nat → α → Bool) (q : α → Bool)
    (h : ∀ a, ((List.range n).map (fun i => if p i a then (1 : Nat) else 0)).sum
        = if q a then 1 else 0)
    (l : List α) :
    ((List.range n).map (fun i => l.countP (p i))).sum = l.countP q := by
  induction l with
  | nil =>
    simp [List.countP_nil]
  | cons a l ih =>
    calc ((List.range n).map (fun i => (a :: l).countP (p i))).sum
        = ((List.range n).map (fun i => l.countP (p i) + if p i a then 1 else 0)).sum := by
          simp only [List.countP_cons]
      _ = ((List.range n).map (fun i => l.countP (p i))).sum
            + ((List.range n).map (fun i => if p i a then (1 : Nat) else 0)).sum :=
          sum_map_add _ _ _
      _ = l.countP q + (if q a then 1 else 0) := by rw [ih, h a]
      _ = (a :: l).countP q := (List.countP_cons _ _ _).symm

/-- Each instant belongs to exactly one of the seven bucketed days, so
for a single event the seven daily predicates hold exactly once when the
event is a cigarette inside the 7-day window, and never otherwise. -/
lemma daily_partition_pointwise (now : Int) (e : Event) :
    ((List.range 7).map (fun (k : Nat) => if
        decide ((Int.fdiv now usPerDay - 6 + (k : Int)) * usPerDay ≤ e.created_at) &&
        decide (e.created_at ≤ (Int.fdiv now usPerDay - 6 + (k : Int)) * usPerDay + usPerDay - 1) &&
        (e.event_type == "cigarette") then (1 : Nat) else 0)).sum
      = if (e.event_type == "cigarette") &&
          decide (weeklyWindowStart now ≤ e.created_at) &&
          decide (e.created_at ≤ weeklyWindowEnd now) then 1 else 0 := by
  have h7 : ∀ g : Nat → Nat, ((List.range 7).map g).sum
      = g 0 + (g 1 + (g 2 + (g 3 + (g 4 + (g 5 + (g 6 + 0)))))) := fun g => rfl
  rw [h7]
  by_cases hc : e.event_type = "cigarette"
  · simp only [hc, beq_self_eq_true, Bool.and_true, Bool.true_and,
      Bool.and_eq_true, decide_eq_true_eq, weeklyWindowStart,
      weeklyWindowEnd, usPerDay, Nat.cast_zero, Nat.cast_one, Nat.cast_ofNat]
    split_ifs <;> omega
  · have hcf : (e.event_type == "cigarette") = false := by simpa using hc
    simp [hcf]

set_option maxRecDepth 8000 in
set_option maxHeartbeats 1000000 in
/-- Claim C5, counterexample to the claim as stated.  1001 cigarette
events at one instant of today: the day's fetch is capped at 1000
records (`to_list(1000)`, line 436 of `server.py`), so the buckets sum
to 1000 while the 7-day window holds 1001 cigarette events — one event
is missed. -/
theorem claim_C5_counterexample :
    ((computeDailyBuckets 0 bigLog).map DayBucket.cigarettes).sum
      ≠ bigLog.countP (fun e =>
          (e.event_type == "cigarette") &&
          decide (weeklyWindowStart 0 ≤ e.created_at) &&
          decide (e.created_at ≤ weeklyWindowEnd 0)) := by
  decide

/-- Claim C5 as amended: whenever each of the seven day windows holds at
most 1000 of the user's events (the `to_list(1000)` fetch cap is
lossless), the `cigarettes` fields of the seven daily buckets sum to the
number of cigarette-type events whose `created_at` lies in the 7-day
window those buckets cover (midnight of the oldest day through the last
microsecond of today): the seven day windows partition the window, so
every such event is counted exactly once and none across a day boundary
twice. -/
theorem claim_C5_bucket_sum (now : Int) (evs : List Event)
    (h : ∀ i, (evs.filter (inDayWindow now i)).length ≤ 1000) :
    ((computeDailyBuckets now evs).map DayBucket.cigarettes).sum
      = evs.countP (fun e =>
          (e.event_type == "cigarette") &&
          decide (weeklyWindowStart now ≤ e.created_at) &&
          decide (e.created_at ≤ weeklyWindowEnd now)) := by
  rw [computeDailyBuckets_eq_spec now evs h]
  have hform : ([dayBucketSpec now evs 0, dayBucketSpec now evs 1, dayBucketSpec now evs 2,
      dayBucketSpec now evs 3, dayBucketSpec now evs 4, dayBucketSpec now evs 5,
      dayBucketSpec now evs 6]).map DayBucket.cigarettes
      = (List.range 7).map (fun i => (dayBucketSpec now evs i).cigarettes) := rfl
  rw [hform]
  simp only [dayBucketSpec]
  exact sum_map_countP 7 _ _ (daily_partition_pointwise now) evs

/-- Witness for claim C5 (amended) at a one-event log, where no window
can overflow the fetch cap. -/
theorem claim_C5_witness :
    ((computeDailyBuckets 0 [cexEvent]).map DayBucket.cigarettes).sum
      = [cexEvent].countP (fun e =>
          (e.event_type == "cigarette") &&
          decide (weeklyWindowStart 0 ≤ e.created_at) &&
          decide (e.created_at ≤ weeklyWindowEnd 0)) :=
  claim_C5_bucket_sum 0 [cexEvent]
    (fun i => le_trans (List.length_filter_le _ _) (by norm_num))

/-- When its week window holds at most 1000 of the user's events, the
`to_list(1000)` cap of the `i`-th week fetch is lossless. -/
lemma weekWindowFetch_of_le (now : Int) (evs : List Event) (i : Nat)
    (h : (evs.filter (inWeekWindow now i)).length ≤ 1000) :
    weekWindowFetch now evs i = evs.filter (inWeekWindow now i) := by
  unfold weekWindowFetch
  exact List.take_of_length_le h

/-- The weekly bucket the loop builds at internal index `i` is the
spec's bucket at output position `k = 3 - i`, provided the window's
fetch was not truncated by the 1000-record cap. -/
lemma weeklyBucketRaw_eq_spec (now : Int) (evs : List Event) (i k : Nat)
    (hw : 4 - i = k + 1) (hk : (4 : Int) - (k : Int) = (i : Int) + 1)
    (h : (evs.filter (inWeekWindow now i)).length ≤ 1000) :
    weeklyBucketRaw now evs i = weekBucketSpec now evs k := by
  have hlo : now - (i : Int) * (7 * usPerDay) - 7 * usPerDay
      = now - (4 - (k : Int)) * (7 * usPerDay) := by
    rw [hk]
    ring
  have hhi : now - (i : Int) * (7 * usPerDay)
      = now - (3 - (k : Int)) * (7 * usPerDay) := by
    have h3 : (3 : Int) - (k : Int) = (i : Int) := by omega
    rw [h3]
  unfold weeklyBucketRaw weekBucketSpec
  rw [hw, weekWindowFetch_of_le now evs i h]
  simp only [countType_filter]
  unfold inWeekWindow
  rw [hlo, hhi]

set_option maxRecDepth 8000 in
set_option maxHeartbeats 1000000 in
/-- Claim C7, counterexample to the claim as stated.  1001 cigarette
events at the instant `now`: the most recent week's fetch is capped at
1000 records (`to_list(1000)`, line 461 of `server.py`), so the newest
bucket tallies 1000 while the spec bucket over the full inclusive window
tallies 1001: the bucket lists differ. -/
theorem claim_C7_counterexample :
    computeMonthlyBuckets 0 bigLog ≠
      [weekBucketSpec 0 bigLog 0, weekBucketSpec 0 bigLog 1,
       weekBucketSpec 0 bigLog 2, weekBucketSpec 0 bigLog 3] := by
  intro h
  have h4 : ((computeMonthlyBuckets 0 bigLog).map WeekBucket.cigarettes).getLast?
      = (([weekBucketSpec 0 bigLog 0, weekBucketSpec 0 bigLog 1,
          weekBucketSpec 0 bigLog 2, weekBucketSpec 0 bigLog 3]).map
          WeekBucket.cigarettes).getLast? := by
    rw [h]
  have hl : ((computeMonthlyBuckets 0 bigLog).map WeekBucket.cigarettes).getLast?
      = some 1000 := by
    decide
  have hr : (([weekBucketSpec 0 bigLog 0, weekBucketSpec 0 bigLog 1,
      weekBucketSpec 0 bigLog 2, weekBucketSpec 0 bigLog 3]).map
      WeekBucket.cigarettes).getLast? = some 1001 := by
    decide
  rw [hl, hr] at h4
  injection h4 with h5
  omega

/-- Claim C7 as amended.  `get_monthly_progress` always returns exactly
4 buckets, oldest to newest, labelled `Week 1` through `Week 4` (oldest
labelled `Week 1`), whose windows are the trailing 7-day intervals
`[now - (i+1)*7d, now - i*7d]` for internal index `i = 3 - k`; and
whenever each week window holds at most 1000 of the user's events (the
`to_list(1000)` fetch cap is lossless), the result is exactly
`[weekBucketSpec 0, …, weekBucketSpec 3]` with the three event types
tallied inside each inclusive window. -/
theorem claim_C7_four_weekly_buckets (now : Int) (evs : List Event) :
    (computeMonthlyBuckets now evs).map WeekBucket.week
      = ["Week 1", "Week 2", "Week 3", "Week 4"]
    ∧ (computeMonthlyBuckets now evs).map WeekBucket.start_date
      = [now - 4 * (7 * usPerDay), now - 3 * (7 * usPerDay),
         now - 2 * (7 * usPerDay), now - 7 * usPerDay]
    ∧ (computeMonthlyBuckets now evs).map WeekBucket.end_date
      = [now - 3 * (7 * usPerDay), now - 2 * (7 * usPerDay),
         now - 7 * usPerDay, now]
    ∧ ((∀ i, (evs.filter (inWeekWindow now i)).length ≤ 1000) →
        computeMonthlyBuckets now evs =
          [weekBucketSpec now evs 0, weekBucketSpec now evs 1,
           weekBucketSpec now evs 2, weekBucketSpec now evs 3]) := by
  have hrev : computeMonthlyBuckets now evs
      = [weeklyBucketRaw now evs 3, weeklyBucketRaw now evs 2,
         weeklyBucketRaw now evs 1, weeklyBucketRaw now evs 0] := rfl
  have s3 : now - ((3 : Nat) : Int) * (7 * usPerDay) - 7 * usPerDay
      = now - 4 * (7 * usPerDay) := by
    push_cast
    ring
  have s2 : now - ((2 : Nat) : Int) * (7 * usPerDay) - 7 * usPerDay
      = now - 3 * (7 * usPerDay) := by
    push_cast
    ring
  have s1 : now - ((1 : Nat) : Int) * (7 * usPerDay) - 7 * usPerDay
      = now - 2 * (7 * usPerDay) := by
    push_cast
    ring
  have s0 : now - ((0 : Nat) : Int) * (7 * usPerDay) - 7 * usPerDay
      = now - 7 * usPerDay := by
    push_cast
    ring
  have t3 : now - ((3 : Nat) : Int) * (7 * usPerDay) = now - 3 * (7 * usPerDay) := by
    push_cast
    ring
  have t2 : now - ((2 : Nat) : Int) * (7 * usPerDay) = now - 2 * (7 * usPerDay) := by
    push_cast
    ring
  have t1 : now - ((1 : Nat) : Int) * (7 * usPerDay) = now - 7 * usPerDay := by
    push_cast
    ring
  have t0 : now - ((0 : Nat) : Int) * (7 * usPerDay) = now := by
    push_cast
    ring
  refine ⟨?_, ?_, ?_, fun h => ?_⟩
  · rw [hrev]
    simp only [List.map_cons, List.map_nil, weeklyBucketRaw]
    decide
  · rw [hrev]
    simp only [List.map_cons, List.map_nil, weeklyBucketRaw]
    rw [s3, s2, s1, s0]
  · rw [hrev]
    simp only [List.map_cons, List.map_nil, weeklyBucketRaw]
    rw [t3, t2, t1, t0]
  · rw [hrev,
      weeklyBucketRaw_eq_spec now evs 3 0 (by norm_num) (by norm_num) (h 3),
      weeklyBucketRaw_eq_spec now evs 2 1 (by norm_num) (by norm_num) (h 2),
      weeklyBucketRaw_eq_spec now evs 1 2 (by norm_num) (by norm_num) (h 1),
      weeklyBucketRaw_eq_spec now evs 0 3 (by norm_num) (by norm_num) (h 0)]

/-- Witness for claim C7 (amended) at a one-event log, where no window
can overflow the fetch cap. -/
theorem claim_C7_witness :
    computeMonthlyBuckets 0 [cexEvent] =
      [weekBucketSpec 0 [cexEvent] 0, weekBucketSpec 0 [cexEvent] 1,
       weekBucketSpec 0 [cexEvent] 2, weekBucketSpec 0 [cexEvent] 3] :=
  (claim_C7_four_weekly_buckets 0 [cexEvent]).2.2.2
    (fun i => le_trans (List.length_filter_le _ _) (by norm_num))

/-- One `addCount` step changes exactly the looked-up counter of the key
it was given. -/
lemma lookupCount_addCount (ty' ty : String) : ∀ acc,
    lookupCount (addCount acc ty') ty
      = lookupCount acc ty + (if ty' = ty then 1 else 0) := by
  intro acc
  induction acc with
  | nil => simp [addCount, lookupCount]
  | cons hd rest ih =>
    obtain ⟨t, c⟩ := hd
    by_cases h : t = ty'
    · subst h
      simp only [addCount, if_pos rfl, lookupCount]
      split_ifs <;> simp_all
    · simp only [addCount, if_neg h, lookupCount, ih]
      split_ifs <;> simp_all

/-- The `type_counts` dict answers each key with the number of trigger
records of that `trigger_type`. -/
lemma lookupCount_typeCounts (triggers : List Trigger) (ty : String) :
    lookupCount (typeCounts triggers) ty
      = triggers.countP (fun tr => tr.trigger_type == ty) := by
  suffices h : ∀ acc, lookupCount
        (triggers.foldl (fun acc tr => addCount acc tr.trigger_type) acc) ty
      = lookupCount acc ty + triggers.countP (fun tr => tr.trigger_type == ty) by
    simpa [typeCounts, lookupCount] using h []
  induction triggers with
  | nil =>
    intro acc
    simp [List.countP_nil]
  | cons tr rest ih =>
    intro acc
    rw [List.foldl_cons, ih (addCount acc tr.trigger_type), lookupCount_addCount,
      List.countP_cons]
    by_cases h : tr.trigger_type = ty
    · simp only [h, if_pos rfl, beq_self_eq_true, if_true]
      omega
    · have hb : (tr.trigger_type == ty) = false := by simpa using h
      simp only [if_neg h, hb, Bool.false_eq_true, if_false]
      omega

/-- The stably sorted pair list is descending by count. -/
lemma sorted_descByCount (counts : List (String × Nat)) :
    List.Pairwise (fun a b : String × Nat => b.2 ≤ a.2)
      (counts.mergeSort descByCount) := by
  have h := @List.sorted_mergeSort _ descByCount
    (fun a b c hab hbc => by
      simp only [descByCount, decide_eq_true_eq] at *
      omega)
    (fun a b => by
      simp only [descByCount, Bool.or_eq_true, decide_eq_true_eq]
      omega)
    counts
  exact h.imp (fun hab => by simpa [descByCount] using hab)

/-- A trigger log of 1001 identical records: one more than the
`to_list(1000)` cap of the trigger fetch. -/
def bigTriggerLog : List Trigger := List.replicate 1001 { trigger_type := "stress" }

set_option maxRecDepth 8000 in
/-- Claim C9, counterexample to the claim as stated.  For a user with
1001 trigger records the fetch is capped at 1000 (`to_list(1000)`, line
363 of `server.py`), so `total_triggers` reports 1000, not the count of
all of the user's records. -/
theorem claim_C9_counterexample :
    (computeTriggerPatterns bigTriggerLog).total_triggers ≠ bigTriggerLog.length := by
  decide

/-- Claim C9 as amended: for every user with at most 1000 trigger
records (so the `to_list(1000)` fetch cap is lossless),
`get_trigger_patterns` computed over all of the user's trigger records
(no time filter) reports: the total record count; a per-type mapping
answering every type with its occurrence count; a ranking that is a
permutation of that mapping sorted descending by count; `most_common`
the head of the ranking (`none` on an empty log) and `top_triggers` its
first five entries; on an empty log the total is 0, `most_common` is
`none` and `top_triggers` is `[]`. -/
theorem claim_C9_trigger_patterns (triggers : List Trigger)
    (h : triggers.length ≤ 1000) :
    (computeTriggerPatterns triggers).total_triggers = triggers.length
    ∧ (computeTriggerPatterns triggers).by_type = typeCounts triggers
    ∧ (∀ ty, lookupCount (computeTriggerPatterns triggers).by_type ty
        = triggers.countP (fun tr => tr.trigger_type == ty))
    ∧ List.Pairwise (fun a b : String × Nat => b.2 ≤ a.2)
        ((typeCounts triggers).mergeSort descByCount)
    ∧ ((typeCounts triggers).mergeSort descByCount).Perm (typeCounts triggers)
    ∧ (computeTriggerPatterns triggers).most_common
        = (((typeCounts triggers).mergeSort descByCount).head?).map Prod.fst
    ∧ (computeTriggerPatterns triggers).top_triggers
        = ((typeCounts triggers).mergeSort descByCount).take 5
    ∧ (triggers = [] → (computeTriggerPatterns triggers).total_triggers = 0
        ∧ (computeTriggerPatterns triggers).most_common = none
        ∧ (computeTriggerPatterns triggers).top_triggers = []) := by
  have ht : triggers.take 1000 = triggers := List.take_of_length_le h
  refine ⟨?_, ?_, fun ty => ?_, sorted_descByCount _, List.mergeSort_perm _ _,
    ?_, ?_, fun he => ?_⟩
  · show (triggers.take 1000).length = triggers.length
    rw [ht]
  · show typeCounts (triggers.take 1000) = typeCounts triggers
    rw [ht]
  · show lookupCount (typeCounts (triggers.take 1000)) ty
        = triggers.countP (fun tr => tr.trigger_type == ty)
    rw [ht]
    exact lookupCount_typeCounts triggers ty
  · show ((typeCounts (triggers.take 1000)).mergeSort descByCount).head?.map Prod.fst
        = (((typeCounts triggers).mergeSort descByCount).head?).map Prod.fst
    rw [ht]
  · show ((typeCounts (triggers.take 1000)).mergeSort descByCount).take 5
        = ((typeCounts triggers).mergeSort descByCount).take 5
    rw [ht]
  · subst he
    refine ⟨rfl, ?_, ?_⟩ <;>
      simp [computeTriggerPatterns, typeCounts, List.mergeSort_nil]

/-- Witness for claim C9 (amended) at the empty trigger log. -/
theorem claim_C9_witness :
    (computeTriggerPatterns ([] : List Trigger)).total_triggers = 0
    ∧ (computeTriggerPatterns ([] : List Trigger)).most_common = none
    ∧ (computeTriggerPatterns ([] : List Trigger)).top_triggers = [] :=
  (claim_C9_trigger_patterns [] (by norm_num)).2.2.2.2.2.2.2 rfl

end NoSmoke
